import Mathlib

/-!
Shallow embedding of the booking-and-result lifecycle and credential
subsystem of the FastAPI backend in `src/main.py` (models, schemas and
route handlers) together with the startup catalog seeding.

Modelling conventions:
* The SQLAlchemy-backed Postgres store is embedded as an explicit
  `DBState` record of row lists plus autoincrement counters; each route
  handler becomes a pure function from the state (and the request
  payload) to a response together with the next state.
* `HTTPException` status codes are mapped to an error enumeration:
  401 "Invalid credentials" to `ApiError.invalidCredentials`,
  403 to `ApiError.forbidden`, 404 to `ApiError.notFound`, and the
  400 "already exists" uniqueness rejections to `ApiError.conflict`.
  A violated database uniqueness or primary-key constraint at commit
  time (SQLAlchemy `IntegrityError`, e.g. the
  `UniqueConstraint("user_id", "question_id")` on user security answers)
  is likewise surfaced as `ApiError.conflict`, the transaction leaving
  the store unchanged.
* The bcrypt hashing of the external `passlib` CryptContext is modelled
  by a deterministic tag-prefixing function: it is injective, its output
  never equals its input (bcrypt digests carry the `$2b$` prefix), and
  verification succeeds exactly on the matching plaintext.
* `DateTime` audit columns that default to the current wall-clock time
  (`created_at`, `booking_date`, `registered_on`) are outside the
  embedding: they model real time and no verified property refers to
  them.  `Date` values are embedded as strings, matching the exact
  string/date equality the date-scoped routes use.
* Roles and test results are embedded as closed enumerations, following
  the `Literal` types of the request schemas through which every stored
  value is produced.
-/

/-- The closed role set of the `UserCreate` schema
(`Literal["learner", "instructor", "admin", "super_admin"]`). -/
inductive Role where
  | learner
  | instructor
  | admin
  | super_admin
deriving DecidableEq

/-- The closed result set of the booking schemas
(`Literal['passed', 'failed', 'absent', 'pending']`); the
`learner_test_bookings.result` column defaults to `"pending"`. -/
inductive TestResult where
  | pending
  | passed
  | failed
  | absent
deriving DecidableEq

/-- Error outcomes of the route handlers, mapped from HTTP status codes
as described in the module docstring. -/
inductive ApiError where
  | invalidCredentials
  | forbidden
  | notFound
  | conflict
deriving DecidableEq

/-- A row of the `users` table (the `created_at` audit column is not
modelled).  `password` holds the bcrypt hash, never the plaintext. -/
structure User where
  id : Nat
  username : String
  password : String
  email : String
  role : Role
  is_active : Bool
deriving DecidableEq

/-- A row of the `learner_test_bookings` table (`booking_date` and
`registered_on` audit columns are not modelled). -/
structure LearnerTestBooking where
  booking_id : Nat
  learner_id : Nat
  instructor_id : Nat
  station_id : Nat
  test_date : String
  result : TestResult
  license_code : Option String
deriving DecidableEq

/-- A row of the `security_questions` table. -/
structure SecurityQuestion where
  id : Nat
  question : String
deriving DecidableEq

/-- A row of the `user_security_answers` table (the `created_at` audit
column is not modelled).  The table carries
`UniqueConstraint("user_id", "question_id")`. -/
structure UserSecurityAnswer where
  id : Nat
  user_id : Nat
  question_id : Nat
  answer_hash : String
deriving DecidableEq

/-- The persistent store: the rows of each modelled table plus the
autoincrement counter backing each integer primary key. -/
structure DBState where
  users : List User
  next_user_id : Nat
  bookings : List LearnerTestBooking
  next_booking_id : Nat
  questions : List SecurityQuestion
  next_question_id : Nat
  answers : List UserSecurityAnswer
  next_answer_id : Nat
deriving DecidableEq

/-- A freshly initialised store: empty tables, all sequences at 1. -/
def emptyDB : DBState :=
  { users := [], next_user_id := 1
  , bookings := [], next_booking_id := 1
  , questions := [], next_question_id := 1
  , answers := [], next_answer_id := 1 }

/-- Model of `pwd_context.hash` (external passlib bcrypt): deterministic
tagged transformation whose output never coincides with any plaintext it
is applied to (bcrypt digests always carry a `$2b$` version prefix). -/
def get_password_hash (password : String) : String :=
  "$2b$12$" ++ password

/-- Model of `pwd_context.verify`: succeeds exactly when the stored hash
is the hash of the presented plaintext. -/
def verify_password (plain_password hashed_password : String) : Bool :=
  hashed_password == get_password_hash plain_password

/-- The `LoginRequest` schema: `{username, password, role}`; the `role`
field is accepted but never consulted by the handler. -/
structure LoginRequest where
  username : String
  password : String
  role : String
deriving DecidableEq

/-- The identity payload the `login` route returns on success:
`{"userid", "username", "role", "email"}`. -/
structure LoginResponse where
  userid : Nat
  username : String
  role : Role
  email : String
deriving DecidableEq

/-- The role allow-list of the `login` handler:
`str(user.role) not in ["instructor", "admin", "super_admin"]` is
rejected. -/
def allowedLoginRole (r : Role) : Bool :=
  r == Role.instructor || r == Role.admin || r == Role.super_admin

/-- `POST /login` (`login` in `src/main.py`): look up the user by
username; absent user or failed password verification yield the same
401; a role outside the allow-list, then an inactive account, yield 403;
otherwise the identity payload is returned. -/
def login (st : DBState) (req : LoginRequest) : Except ApiError LoginResponse :=
  match st.users.find? (fun u => u.username == req.username) with
  | none => Except.error ApiError.invalidCredentials
  | some user =>
    if verify_password req.password user.password = false then
      Except.error ApiError.invalidCredentials
    else if allowedLoginRole user.role = false then
      Except.error ApiError.forbidden
    else if user.is_active = false then
      Except.error ApiError.forbidden
    else
      Except.ok { userid := user.id, username := user.username
                , role := user.role, email := user.email }

/-- The `UserCreate` schema. -/
structure UserCreate where
  username : String
  password : String
  email : String
  role : Role
  is_active : Bool := true
deriving DecidableEq

/-- The row `create_user` inserts: the schema fields with the password
replaced by its hash and the id drawn from the sequence. -/
def newUserRow (st : DBState) (user : UserCreate) : User :=
  { id := st.next_user_id, username := user.username
  , password := get_password_hash user.password
  , email := user.email, role := user.role, is_active := user.is_active }

/-- `POST /users/` (`create_user`): reject with 400 if any existing row
matches the username or the email; otherwise insert the row with the
hashed password and return it. -/
def create_user (st : DBState) (user : UserCreate) :
    Except ApiError User × DBState :=
  if st.users.any (fun x => x.username == user.username || x.email == user.email) then
    (Except.error ApiError.conflict, st)
  else
    (Except.ok (newUserRow st user),
      { st with users := st.users ++ [newUserRow st user]
              , next_user_id := st.next_user_id + 1 })

/-- The `LearnerTestBookingSchema` request schema.  `none` in an
optional field models the field being unset in the request, so that
`booking.dict(exclude_unset=True)` omits it and the column default
applies (`booking_id` falls to the autoincrement sequence, `result` to
`"pending"`). -/
structure LearnerTestBookingSchema where
  booking_id : Option Nat := none
  learner_id : Nat
  instructor_id : Nat
  station_id : Nat
  test_date : String
  result : Option TestResult := none
  license_code : Option String := none
deriving DecidableEq

/-- The primary key the inserted booking receives: the explicit value
when the request sets one, otherwise the autoincrement sequence. -/
def newBookingId (st : DBState) (booking : LearnerTestBookingSchema) : Nat :=
  match booking.booking_id with
  | some i => i
  | none => st.next_booking_id

/-- The row `create_test_booking` inserts: set fields from the request,
unset fields from the column defaults. -/
def newBookingRow (st : DBState) (booking : LearnerTestBookingSchema) :
    LearnerTestBooking :=
  { booking_id := newBookingId st booking, learner_id := booking.learner_id
  , instructor_id := booking.instructor_id, station_id := booking.station_id
  , test_date := booking.test_date
  , result := booking.result.getD TestResult.pending
  , license_code := booking.license_code }

/-- `POST /learner-test-bookings/` (`create_test_booking`): insert the
row built from the set fields, unset fields falling to the column
defaults (autoincrement `booking_id`, `result = "pending"`); a
primary-key collision at commit is an `IntegrityError`, modelled as
`conflict` with the store unchanged.  The handler returns the request
schema itself (`return booking`), not the refreshed row. -/
def create_test_booking (st : DBState) (booking : LearnerTestBookingSchema) :
    Except ApiError LearnerTestBookingSchema × DBState :=
  if st.bookings.any (fun x => x.booking_id == newBookingId st booking) then
    (Except.error ApiError.conflict, st)
  else
    (Except.ok booking,
      { st with bookings := st.bookings ++ [newBookingRow st booking]
              , next_booking_id :=
                  if booking.booking_id.isNone then st.next_booking_id + 1
                  else st.next_booking_id })

/-- Overwrite the first row satisfying the predicate, modelling
`query(...).first()` followed by an attribute mutation and commit. -/
def updateFirst (p : α → Bool) (f : α → α) : List α → List α
  | [] => []
  | x :: xs => if p x then f x :: xs else x :: updateFirst p f xs

/-- `PUT /learner-test-bookings/{booking_id}/result`
(`update_test_result`): 404 when no row has the id; otherwise overwrite
that row's `result` unconditionally and acknowledge with the id and the
new result (the handler's message dict). -/
def update_test_result (st : DBState) (booking_id : Nat)
    (result : TestResult) : Except ApiError (Nat × TestResult) × DBState :=
  match st.bookings.find? (fun b => b.booking_id == booking_id) with
  | none => (Except.error ApiError.notFound, st)
  | some _ =>
    (Except.ok (booking_id, result),
      { st with bookings :=
          (updateFirst (fun b => b.booking_id == booking_id)
            (fun b => { b with result := result }) st.bookings) })

/-- `GET /learner-test-bookings/{booking_id}` (`get_test_booking`). -/
def get_test_booking (st : DBState) (booking_id : Nat) :
    Except ApiError LearnerTestBooking :=
  match st.bookings.find? (fun b => b.booking_id == booking_id) with
  | none => Except.error ApiError.notFound
  | some b => Except.ok b

/-- `GET /learner-test-bookings/learner/{learner_id}`
(`get_bookings_by_learner`): 404 when the filtered list is empty. -/
def get_bookings_by_learner (st : DBState) (learner_id : Nat) :
    Except ApiError (List LearnerTestBooking) :=
  let bookings := st.bookings.filter (fun b => b.learner_id == learner_id)
  if bookings.isEmpty then Except.error ApiError.notFound
  else Except.ok bookings

/-- `GET /learner-test-bookings/pending/{date}` (`get_pending_learners`):
the bookings on the exact date with `result == 'pending'`; the handler
has no failure path, an empty list is returned as-is. -/
def get_pending_learners (st : DBState) (d : String) :
    List LearnerTestBooking :=
  st.bookings.filter (fun b => b.test_date == d && b.result == TestResult.pending)

/-- `GET /learner-test-bookings/completed/{date}`
(`get_completed_learners`): the bookings on the exact date with
`result != 'pending'`; no failure path. -/
def get_completed_learners (st : DBState) (d : String) :
    List LearnerTestBooking :=
  st.bookings.filter (fun b => b.test_date == d && b.result != TestResult.pending)

/-- The per-booking dict appended to a result bucket by
`get_all_results_by_date` (its `booking_date` entry is an unmodelled
audit timestamp). -/
structure BookingResultEntry where
  booking_id : Nat
  learner_id : Nat
  instructor_id : Nat
  result : TestResult
  license_code : Option String
  test_date : String
deriving DecidableEq

/-- Build the bucket entry of a booking row. -/
def entryOf (b : LearnerTestBooking) : BookingResultEntry :=
  { booking_id := b.booking_id, learner_id := b.learner_id
  , instructor_id := b.instructor_id, result := b.result
  , license_code := b.license_code, test_date := b.test_date }

/-- The `results_summary` dict of `get_all_results_by_date`: one bucket
per result value. -/
structure ResultBuckets where
  pending : List BookingResultEntry := []
  passed : List BookingResultEntry := []
  failed : List BookingResultEntry := []
  absent : List BookingResultEntry := []
deriving DecidableEq

/-- One iteration of the grouping loop: append the booking's entry to
the bucket named by its result (`result_status in results_summary` is
exhaustive over the closed result enumeration). -/
def addToBucket (acc : ResultBuckets) (b : LearnerTestBooking) : ResultBuckets :=
  match b.result with
  | TestResult.pending => { acc with pending := acc.pending ++ [entryOf b] }
  | TestResult.passed => { acc with passed := acc.passed ++ [entryOf b] }
  | TestResult.failed => { acc with failed := acc.failed ++ [entryOf b] }
  | TestResult.absent => { acc with absent := acc.absent ++ [entryOf b] }

/-- The per-bucket counts of the `summary` dict. -/
structure ResultCounts where
  pending : Nat
  passed : Nat
  failed : Nat
  absent : Nat
deriving DecidableEq

/-- The response of `GET /learner-test-bookings/results/{date}`. -/
structure ResultsByDateResponse where
  date : String
  total_bookings : Nat
  results : ResultBuckets
  summary : ResultCounts
deriving DecidableEq

/-- `GET /learner-test-bookings/results/{date}`
(`get_all_results_by_date`): filter the bookings to the exact date, group
them into the four buckets in list order, and report the bucket lengths
and the total number of date-matching bookings. -/
def get_all_results_by_date (st : DBState) (d : String) : ResultsByDateResponse :=
  let all_bookings := st.bookings.filter (fun b => b.test_date == d)
  let results_summary := all_bookings.foldl addToBucket {}
  { date := d
  , total_bookings := all_bookings.length
  , results := results_summary
  , summary :=
      { pending := results_summary.pending.length
      , passed := results_summary.passed.length
      , failed := results_summary.failed.length
      , absent := results_summary.absent.length } }

/-- The `SecurityAnswerCreate` schema. -/
structure SecurityAnswerCreate where
  user_id : Nat
  question_id : Nat
  answer : String
deriving DecidableEq

/-- The row `create_security_answer` inserts: the pair of foreign keys
with the hash of the answer, the id drawn from the sequence. -/
def newAnswerRow (st : DBState) (answer : SecurityAnswerCreate) :
    UserSecurityAnswer :=
  { id := st.next_answer_id, user_id := answer.user_id
  , question_id := answer.question_id
  , answer_hash := get_password_hash answer.answer }

/-- `POST /user-security-answers/` (`create_security_answer`): hash the
answer and insert the row; the handler itself performs no duplicate
check, but the table's `UniqueConstraint("user_id", "question_id")`
rejects a duplicate pair at commit (`IntegrityError`, modelled as
`conflict` with the store unchanged). -/
def create_security_answer (st : DBState) (answer : SecurityAnswerCreate) :
    Except ApiError Unit × DBState :=
  if st.answers.any (fun x => x.user_id == answer.user_id && x.question_id == answer.question_id) then
    (Except.error ApiError.conflict, st)
  else
    (Except.ok (),
      { st with answers := st.answers ++ [newAnswerRow st answer]
              , next_answer_id := st.next_answer_id + 1 })

/-- `GET /user-security-answers/id/{user_id}`
(`get_security_answers_by_user`): 404 when the filtered list is
empty. -/
def get_security_answers_by_user (st : DBState) (user_id : Nat) :
    Except ApiError (List UserSecurityAnswer) :=
  let answers := st.answers.filter (fun a => a.user_id == user_id)
  if answers.isEmpty then Except.error ApiError.notFound
  else Except.ok answers

/-- The six canonical security questions seeded at startup
(`default_qs` in `insert_default_questions`; `init_db.init_database`
seeds the identical list with the identical insert-if-absent loop). -/
def default_qs : List String :=
  [ "What is the name of your first pet?"
  , "What was the model of your first car?"
  , "In what city were you born?"
  , "What is your mother's maiden name?"
  , "What is the name of the street you grew up?"
  , "What is the name of your primary school?" ]

/-- One iteration of the seeding loop: insert the question only when no
row carries exactly that text. -/
def insertQuestionIfAbsent (st : DBState) (q : String) : DBState :=
  if st.questions.any (fun sq => sq.question == q) then st
  else
    { st with questions := st.questions ++ [{ id := st.next_question_id, question := q }]
            , next_question_id := st.next_question_id + 1 }

/-- The startup seeding (`insert_default_questions`): run the
insert-if-absent loop over the six canonical questions; nothing is ever
deleted. -/
def insert_default_questions (st : DBState) : DBState :=
  default_qs.foldl insertQuestionIfAbsent st

/-- Number of catalog rows carrying exactly the given question text. -/
def countQuestion (st : DBState) (q : String) : Nat :=
  st.questions.countP (fun sq => sq.question == q)

deriving instance DecidableEq for Except

/-! Concrete fixtures used to instantiate the verified properties. -/

/-- A well-formed instructor account request. -/
def exUser1 : UserCreate :=
  { username := "alice", password := "correct horse"
  , email := "alice@example.com", role := Role.instructor }

/-- A second request reusing `exUser1`'s username. -/
def exUser2 : UserCreate :=
  { username := "alice", password := "other"
  , email := "alice2@example.com", role := Role.learner }

/-- The store after registering `exUser1`. -/
def exUserState : DBState := (create_user emptyDB exUser1).2

/-- A login request presenting `exUser1`'s credentials. -/
def exLoginReq : LoginRequest :=
  { username := "alice", password := "correct horse", role := "instructor" }

/-- A booking request leaving `booking_id` and `result` unset. -/
def exBooking : LearnerTestBookingSchema :=
  { learner_id := 7, instructor_id := 8, station_id := 1
  , test_date := "2024-05-01" }

/-- The store after creating `exBooking`. -/
def exBookingState : DBState := (create_test_booking emptyDB exBooking).2

/-- A security answer for user 4, question 1. -/
def exAnswer1 : SecurityAnswerCreate :=
  { user_id := 4, question_id := 1, answer := "rex" }

/-- A security answer for user 4, question 2. -/
def exAnswer2 : SecurityAnswerCreate :=
  { user_id := 4, question_id := 2, answer := "toyota" }

/-! ## Verified properties -/

/-- The modelled bcrypt hash never returns its own input: a stored
credential is never the plaintext. -/
theorem get_password_hash_ne (p : String) : get_password_hash p ≠ p := by
  intro h
  have hlen := congrArg String.length h
  simp [get_password_hash, String.length_append] at hlen
  exact absurd hlen (by decide)

/-- Claim C1: for every login request, an unknown username or a
non-verifying password yields `invalidCredentials` (the same error in
both cases); with verified credentials, a role outside
{instructor, admin, super_admin} yields `forbidden`; then an inactive
account yields `forbidden`; otherwise login succeeds with exactly the
identity payload of user id, username, role and email — the checks
applied in that order. -/
theorem C1_login_checks (st : DBState) (req : LoginRequest) :
    (st.users.find? (fun u => u.username == req.username) = none →
      login st req = Except.error ApiError.invalidCredentials)
    ∧ (∀ u, st.users.find? (fun x => x.username == req.username) = some u →
        ((verify_password req.password u.password = false →
            login st req = Except.error ApiError.invalidCredentials)
          ∧ (verify_password req.password u.password = true →
            ((allowedLoginRole u.role = false →
                login st req = Except.error ApiError.forbidden)
              ∧ (allowedLoginRole u.role = true →
                ((u.is_active = false →
                    login st req = Except.error ApiError.forbidden)
                  ∧ (u.is_active = true →
                    login st req = Except.ok
                      { userid := u.id, username := u.username
                      , role := u.role, email := u.email }))))))) := by
  constructor
  · intro h
    simp [login, h]
  · intro u hu
    refine ⟨fun hv => ?_, fun hv => ⟨fun hr => ?_, fun hr => ⟨fun ha => ?_, fun ha => ?_⟩⟩⟩ <;>
      simp_all [login]

/-- Witness for C1: the fixture instructor account logs in successfully
and receives exactly its identity payload. -/
theorem C1_login_checks_witness :
    login exUserState exLoginReq = Except.ok
      { userid := 1, username := "alice", role := Role.instructor
      , email := "alice@example.com" } := by
  have h := (C1_login_checks exUserState exLoginReq).2
    { id := 1, username := "alice"
    , password := get_password_hash "correct horse"
    , email := "alice@example.com", role := Role.instructor
    , is_active := true } rfl
  exact ((h.2 rfl).2 rfl).2 rfl

/-- Claim C2: after a successful `create_user`, a second call reusing
the username or the email fails with `conflict` and leaves the store
unchanged (creates no user); every successful `create_user` stores the
bcrypt hash of the supplied password, never the plaintext. -/
theorem C2_create_user_unique (st : DBState) (u1 u2 : UserCreate) :
    ((create_user st u1).1.isOk = true →
      (u2.username = u1.username ∨ u2.email = u1.email) →
      create_user (create_user st u1).2 u2
        = (Except.error ApiError.conflict, (create_user st u1).2))
    ∧ ((create_user st u1).1.isOk = true →
      (create_user st u1).1 = Except.ok (newUserRow st u1)
      ∧ (create_user st u1).2.users = st.users ++ [newUserRow st u1]
      ∧ (newUserRow st u1).password = get_password_hash u1.password
      ∧ (newUserRow st u1).password ≠ u1.password) := by
  by_cases hc : st.users.any (fun x => x.username == u1.username || x.email == u1.email) = true
  · constructor <;> · intro hok; simp [create_user, hc, Except.isOk, Except.toBool] at hok
  · have hc' : st.users.any (fun x => x.username == u1.username || x.email == u1.email) = false := by
      simpa using hc
    constructor
    · intro _ hdup
      simp only [create_user, hc', Bool.false_eq_true, if_false]
      rw [if_pos]
      rw [List.any_append]
      rcases hdup with h | h <;>
        simp [newUserRow, h]
    · intro _
      refine ⟨?_, ?_, rfl, get_password_hash_ne u1.password⟩ <;>
        simp [create_user, hc']

/-- Witness for C2: registering the fixture user and then a second user
with the same username yields `conflict` and the untouched store; the
first call stored the hash, not the plaintext. -/
theorem C2_create_user_unique_witness :
    create_user exUserState exUser2 = (Except.error ApiError.conflict, exUserState)
    ∧ (create_user emptyDB exUser1).2.users
        = emptyDB.users ++ [newUserRow emptyDB exUser1]
    ∧ (newUserRow emptyDB exUser1).password ≠ exUser1.password := by
  have h := C2_create_user_unique emptyDB exUser1 exUser2
  exact ⟨h.1 rfl (Or.inl rfl), (h.2 rfl).2.1, (h.2 rfl).2.2.2⟩


/-- Equation: `create_security_answer` on a store already holding the
(user, question) pair fails with `conflict` and changes nothing. -/
theorem create_security_answer_conflict (st : DBState) (a : SecurityAnswerCreate)
    (h : st.answers.any (fun x => x.user_id == a.user_id && x.question_id == a.question_id) = true) :
    create_security_answer st a = (Except.error ApiError.conflict, st) := by
  simp [create_security_answer, h]

/-- Equation: `create_security_answer` on a store free of the
(user, question) pair appends the hashed row. -/
theorem create_security_answer_ok (st : DBState) (a : SecurityAnswerCreate)
    (h : st.answers.any (fun x => x.user_id == a.user_id && x.question_id == a.question_id) = false) :
    create_security_answer st a
      = (Except.ok (),
          { st with answers := st.answers ++ [newAnswerRow st a]
                  , next_answer_id := st.next_answer_id + 1 }) := by
  simp [create_security_answer, h]

/-- Claim C3: after a successful `create_security_answer`, a second call
for the same (user, question) pair is rejected by the uniqueness
constraint with `conflict`, the stored answers unchanged; a second call
for the same user but a fresh question id succeeds; every successful
call stores the hash of the answer, never the plaintext. -/
theorem C3_record_answer_unique (st : DBState) (a1 a2 : SecurityAnswerCreate) :
    ((create_security_answer st a1).1.isOk = true →
      a2.user_id = a1.user_id → a2.question_id = a1.question_id →
      create_security_answer (create_security_answer st a1).2 a2
        = (Except.error ApiError.conflict, (create_security_answer st a1).2))
    ∧ ((create_security_answer st a1).1.isOk = true →
      st.answers.any (fun x => x.user_id == a2.user_id && x.question_id == a2.question_id) = false →
      a2.question_id ≠ a1.question_id →
      (create_security_answer (create_security_answer st a1).2 a2).1.isOk = true)
    ∧ ((create_security_answer st a1).1.isOk = true →
      (create_security_answer st a1).2.answers = st.answers ++ [newAnswerRow st a1]
      ∧ (newAnswerRow st a1).answer_hash = get_password_hash a1.answer
      ∧ (newAnswerRow st a1).answer_hash ≠ a1.answer) := by
  by_cases hc : st.answers.any (fun x => x.user_id == a1.user_id && x.question_id == a1.question_id) = true
  · refine ⟨?_, ?_, ?_⟩ <;>
      · intro hok
        rw [create_security_answer_conflict st a1 hc] at hok
        simp [Except.isOk, Except.toBool] at hok
  · have hc' : st.answers.any (fun x => x.user_id == a1.user_id && x.question_id == a1.question_id) = false := by
      simpa using hc
    have hok1 := create_security_answer_ok st a1 hc'
    have hans : (create_security_answer st a1).2.answers
        = st.answers ++ [newAnswerRow st a1] := by
      rw [hok1]
    refine ⟨?_, ?_, ?_⟩
    · intro _ hu hq
      have hcond : ((create_security_answer st a1).2.answers).any
          (fun x => x.user_id == a2.user_id && x.question_id == a2.question_id) = true := by
        rw [hans, List.any_append]
        simp [newAnswerRow, hu, hq]
      rw [create_security_answer_conflict (create_security_answer st a1).2 a2 hcond]
    · intro _ hfresh hne
      have hcond : ((create_security_answer st a1).2.answers).any
          (fun x => x.user_id == a2.user_id && x.question_id == a2.question_id) = false := by
        rw [hans, List.any_append, hfresh]
        simp [newAnswerRow, Ne.symm hne]
      rw [create_security_answer_ok (create_security_answer st a1).2 a2 hcond]
      rfl
    · intro _
      exact ⟨hans, rfl, get_password_hash_ne a1.answer⟩

/-- Witness for C3: recording the fixture answer, re-recording the same
(user, question) pair fails with `conflict` leaving the store unchanged,
while recording a second question for the same user succeeds. -/
theorem C3_record_answer_unique_witness :
    create_security_answer (create_security_answer emptyDB exAnswer1).2 exAnswer1
      = (Except.error ApiError.conflict, (create_security_answer emptyDB exAnswer1).2)
    ∧ (create_security_answer (create_security_answer emptyDB exAnswer1).2 exAnswer2).1.isOk = true
    ∧ (newAnswerRow emptyDB exAnswer1).answer_hash ≠ exAnswer1.answer := by
  have h := C3_record_answer_unique emptyDB exAnswer1 exAnswer1
  have h' := C3_record_answer_unique emptyDB exAnswer1 exAnswer2
  exact ⟨h.1 rfl rfl rfl, h'.2.1 rfl rfl (by decide), (h.2.2 rfl).2.2⟩

/-- `updateFirst` commutes with looking the row up again: the first row
matching the id is the one that now carries the overwritten result. -/
theorem find?_updateFirst_result (bid : Nat) (r : TestResult)
    (l : List LearnerTestBooking) :
    (updateFirst (fun b => b.booking_id == bid) (fun b => { b with result := r }) l).find?
        (fun b => b.booking_id == bid)
      = (l.find? (fun b => b.booking_id == bid)).map (fun b => { b with result := r }) := by
  induction l with
  | nil => simp [updateFirst]
  | cons x xs ih =>
    by_cases hx : (x.booking_id == bid) = true
    · simp [updateFirst, hx, List.find?_cons_of_pos]
    · have hx' : (x.booking_id == bid) = false := by simpa using hx
      simp [updateFirst, hx', List.find?_cons_of_neg, ih]

/-- Equation: `update_test_result` on a present booking id acknowledges
and overwrites that row's result. -/
theorem update_test_result_found (st : DBState) (bid : Nat) (r : TestResult)
    (b0 : LearnerTestBooking)
    (h : st.bookings.find? (fun b => b.booking_id == bid) = some b0) :
    update_test_result st bid r
      = (Except.ok (bid, r),
          { st with bookings := (updateFirst (fun b => b.booking_id == bid)
              (fun b => { b with result := r }) st.bookings) }) := by
  simp [update_test_result, h]

/-- Equation: `update_test_result` on an absent booking id fails with
`notFound` and changes nothing. -/
theorem update_test_result_missing (st : DBState) (bid : Nat) (r : TestResult)
    (h : st.bookings.find? (fun b => b.booking_id == bid) = none) :
    update_test_result st bid r = (Except.error ApiError.notFound, st) := by
  simp [update_test_result, h]

/-- Claim C4: on an existing booking, overwriting the result twice with
the same value leaves it at that value (idempotence), and overwriting
with two values leaves it at the most recent one (last-write-wins); on
an absent booking id the update fails with `notFound` and changes
nothing. -/
theorem C4_update_result (st : DBState) (bid : Nat) (r1 r2 : TestResult) :
    ((st.bookings.find? (fun b => b.booking_id == bid)).isSome = true →
      Except.map (fun b => b.result)
          (get_test_booking (update_test_result st bid r1).2 bid) = Except.ok r1
      ∧ Except.map (fun b => b.result)
          (get_test_booking
            (update_test_result (update_test_result st bid r1).2 bid r1).2 bid)
          = Except.ok r1
      ∧ Except.map (fun b => b.result)
          (get_test_booking
            (update_test_result (update_test_result st bid r1).2 bid r2).2 bid)
          = Except.ok r2)
    ∧ (st.bookings.find? (fun b => b.booking_id == bid) = none →
      update_test_result st bid r1 = (Except.error ApiError.notFound, st)) := by
  constructor
  · intro hsome
    obtain ⟨b0, hb0⟩ := Option.isSome_iff_exists.mp hsome
    have e1 : (update_test_result st bid r1).2
        = { st with bookings := (updateFirst (fun b => b.booking_id == bid)
            (fun b => { b with result := r1 }) st.bookings) } := by
      rw [update_test_result_found st bid r1 b0 hb0]
    have hf1 : (updateFirst (fun b => b.booking_id == bid)
          (fun b => { b with result := r1 }) st.bookings).find?
          (fun b => b.booking_id == bid) = some { b0 with result := r1 } := by
      rw [find?_updateFirst_result, hb0]
      rfl
    have e2 : (update_test_result (update_test_result st bid r1).2 bid r1).2
        = { st with bookings := (updateFirst (fun b => b.booking_id == bid)
            (fun b => { b with result := r1 })
            (updateFirst (fun b => b.booking_id == bid)
              (fun b => { b with result := r1 }) st.bookings)) } := by
      rw [e1, update_test_result_found _ bid r1 { b0 with result := r1 } hf1]
    have e3 : (update_test_result (update_test_result st bid r1).2 bid r2).2
        = { st with bookings := (updateFirst (fun b => b.booking_id == bid)
            (fun b => { b with result := r2 })
            (updateFirst (fun b => b.booking_id == bid)
              (fun b => { b with result := r1 }) st.bookings)) } := by
      rw [e1, update_test_result_found _ bid r2 { b0 with result := r1 } hf1]
    have hf2 : (updateFirst (fun b => b.booking_id == bid)
          (fun b => { b with result := r1 })
          (updateFirst (fun b => b.booking_id == bid)
            (fun b => { b with result := r1 }) st.bookings)).find?
          (fun b => b.booking_id == bid) = some { b0 with result := r1 } := by
      rw [find?_updateFirst_result, hf1]
      rfl
    have hf3 : (updateFirst (fun b => b.booking_id == bid)
          (fun b => { b with result := r2 })
          (updateFirst (fun b => b.booking_id == bid)
            (fun b => { b with result := r1 }) st.bookings)).find?
          (fun b => b.booking_id == bid) = some { b0 with result := r2 } := by
      rw [find?_updateFirst_result, hf1]
      rfl
    refine ⟨?_, ?_, ?_⟩
    · rw [e1]
      simp [get_test_booking, hf1, Except.map]
    · rw [e2]
      simp [get_test_booking, hf2, Except.map]
    · rw [e3]
      simp [get_test_booking, hf3, Except.map]
  · intro hnone
    exact update_test_result_missing st bid r1 hnone

/-- Witness for C4: on the fixture booking (id 1), updating to `passed`
then `failed` reads back `failed`; updating the absent id 2 fails with
`notFound` and leaves the store unchanged. -/
theorem C4_update_result_witness :
    Except.map (fun b => b.result)
        (get_test_booking
          (update_test_result (update_test_result exBookingState 1 TestResult.passed).2
            1 TestResult.failed).2 1)
      = Except.ok TestResult.failed
    ∧ update_test_result exBookingState 2 TestResult.passed
      = (Except.error ApiError.notFound, exBookingState) := by
  have h := C4_update_result exBookingState 1 TestResult.passed TestResult.failed
  have h' := C4_update_result exBookingState 2 TestResult.passed TestResult.passed
  exact ⟨(h.1 rfl).2.2, h'.2 rfl⟩

/-- Equation: `create_test_booking` with a fresh primary key appends the
new row and returns the request schema unchanged. -/
theorem create_test_booking_ok (st : DBState) (b : LearnerTestBookingSchema)
    (h : st.bookings.any (fun x => x.booking_id == newBookingId st b) = false) :
    create_test_booking st b
      = (Except.ok b,
          { st with bookings := st.bookings ++ [newBookingRow st b]
                  , next_booking_id :=
                      if b.booking_id.isNone then st.next_booking_id + 1
                      else st.next_booking_id }) := by
  simp [create_test_booking, h]

/-- `find?` skips a prefix in which nothing matches. -/
theorem find?_append_of_none {α : Type} (p : α → Bool) (l₁ l₂ : List α)
    (h : l₁.find? p = none) : (l₁ ++ l₂).find? p = l₂.find? p := by
  induction l₁ with
  | nil => simp
  | cons x xs ih =>
    by_cases hx : p x = true
    · simp [List.find?_cons_of_pos, hx] at h
    · have hx' : p x = false := by simpa using hx
      have h' : xs.find? p = none := by
        simpa [List.find?_cons, hx'] using h
      simp only [List.cons_append, List.find?_cons, hx', cond_false]
      exact ih h'

/-- `updateFirst` skips a prefix in which nothing matches. -/
theorem updateFirst_append_of_none {α : Type} (p : α → Bool) (f : α → α)
    (l₁ l₂ : List α) (h : ∀ x ∈ l₁, p x = false) :
    updateFirst p f (l₁ ++ l₂) = l₁ ++ updateFirst p f l₂ := by
  induction l₁ with
  | nil => simp
  | cons x xs ih =>
    have hx := h x (by simp)
    simp [updateFirst, hx]
    exact ih (fun y hy => h y (by simp [hy]))

/-- Claim C5: a booking created with the result field unset is stored
with result `pending`; the pending-for-date query for its test date then
returns it (selected by its id) and the completed-for-date query does
not; after `update_test_result` sets it to `passed`, the pending query
no longer returns any booking with its id while the completed query
returns exactly the updated row. -/
theorem C5_booking_default_pending (st : DBState) (b : LearnerTestBookingSchema)
    (hres : b.result = none)
    (hok : (create_test_booking st b).1.isOk = true) :
    (newBookingRow st b).result = TestResult.pending
    ∧ ((get_pending_learners (create_test_booking st b).2 b.test_date).filter
        (fun x => x.booking_id == newBookingId st b)) = [newBookingRow st b]
    ∧ ((get_completed_learners (create_test_booking st b).2 b.test_date).filter
        (fun x => x.booking_id == newBookingId st b)) = []
    ∧ ((get_pending_learners
          (update_test_result (create_test_booking st b).2 (newBookingId st b)
            TestResult.passed).2 b.test_date).filter
        (fun x => x.booking_id == newBookingId st b)) = []
    ∧ ((get_completed_learners
          (update_test_result (create_test_booking st b).2 (newBookingId st b)
            TestResult.passed).2 b.test_date).filter
        (fun x => x.booking_id == newBookingId st b))
      = [{ newBookingRow st b with result := TestResult.passed }] := by
  have hrowres : (newBookingRow st b).result = TestResult.pending := by
    simp [newBookingRow, hres]
  have hc' : st.bookings.any (fun x => x.booking_id == newBookingId st b) = false := by
    by_cases h : st.bookings.any (fun x => x.booking_id == newBookingId st b) = true
    · rw [create_test_booking] at hok
      simp [h, Except.isOk, Except.toBool] at hok
    · simpa using h
  have hall : ∀ x ∈ st.bookings, (x.booking_id == newBookingId st b) = false := by
    intro x hx
    by_contra hcontra
    have : st.bookings.any (fun y => y.booking_id == newBookingId st b) = true :=
      List.any_eq_true.mpr ⟨x, hx, by simpa using hcontra⟩
    simp [this] at hc'
  have e0 : (create_test_booking st b).2.bookings
      = st.bookings ++ [newBookingRow st b] := by
    rw [create_test_booking_ok st b hc']
  have hfn : st.bookings.find? (fun x => x.booking_id == newBookingId st b) = none :=
    List.find?_eq_none.mpr (fun x hx => by simp [hall x hx])
  have hfind : (create_test_booking st b).2.bookings.find?
      (fun x => x.booking_id == newBookingId st b) = some (newBookingRow st b) := by
    rw [e0, find?_append_of_none _ _ _ hfn]
    simp [newBookingRow]
  have e1 : (update_test_result (create_test_booking st b).2 (newBookingId st b)
      TestResult.passed).2.bookings
      = st.bookings ++ [{ newBookingRow st b with result := TestResult.passed }] := by
    rw [update_test_result_found _ _ _ _ hfind]
    show updateFirst _ _ ((create_test_booking st b).2.bookings) = _
    rw [e0, updateFirst_append_of_none _ _ _ _ hall]
    simp [updateFirst, newBookingRow]
  refine ⟨hrowres, ?_, ?_, ?_, ?_⟩
  · rw [get_pending_learners, e0, List.filter_append, List.filter_append]
    have h1 : (st.bookings.filter
        (fun x => x.test_date == b.test_date && x.result == TestResult.pending)).filter
        (fun x => x.booking_id == newBookingId st b) = [] := by
      refine List.filter_eq_nil_iff.mpr (fun x hx => ?_)
      have hmem := (List.mem_filter.mp hx).1
      simp [hall x hmem]
    rw [h1]
    simp [newBookingRow, hres]
  · rw [get_completed_learners, e0, List.filter_append, List.filter_append]
    have h1 : (st.bookings.filter
        (fun x => x.test_date == b.test_date && x.result != TestResult.pending)).filter
        (fun x => x.booking_id == newBookingId st b) = [] := by
      refine List.filter_eq_nil_iff.mpr (fun x hx => ?_)
      have hmem := (List.mem_filter.mp hx).1
      simp [hall x hmem]
    rw [h1]
    simp [newBookingRow, hres]
  · rw [get_pending_learners, e1, List.filter_append, List.filter_append]
    have h1 : (st.bookings.filter
        (fun x => x.test_date == b.test_date && x.result == TestResult.pending)).filter
        (fun x => x.booking_id == newBookingId st b) = [] := by
      refine List.filter_eq_nil_iff.mpr (fun x hx => ?_)
      have hmem := (List.mem_filter.mp hx).1
      simp [hall x hmem]
    rw [h1]
    simp [newBookingRow]
  · rw [get_completed_learners, e1, List.filter_append, List.filter_append]
    have h1 : (st.bookings.filter
        (fun x => x.test_date == b.test_date && x.result != TestResult.pending)).filter
        (fun x => x.booking_id == newBookingId st b) = [] := by
      refine List.filter_eq_nil_iff.mpr (fun x hx => ?_)
      have hmem := (List.mem_filter.mp hx).1
      simp [hall x hmem]
    rw [h1]
    simp [newBookingRow]

/-- Witness for C5: the fixture booking is stored `pending`, appears in
the pending query for 2024-05-01 and not the completed one, and after
the update to `passed` appears only in the completed one. -/
theorem C5_booking_default_pending_witness :
    (newBookingRow emptyDB exBooking).result = TestResult.pending
    ∧ ((get_pending_learners exBookingState "2024-05-01").filter
        (fun x => x.booking_id == newBookingId emptyDB exBooking))
      = [newBookingRow emptyDB exBooking]
    ∧ ((get_completed_learners
          (update_test_result exBookingState (newBookingId emptyDB exBooking)
            TestResult.passed).2 "2024-05-01").filter
        (fun x => x.booking_id == newBookingId emptyDB exBooking))
      = [{ newBookingRow emptyDB exBooking with result := TestResult.passed }] := by
  have h := C5_booking_default_pending emptyDB exBooking rfl rfl
  exact ⟨h.1, h.2.1, h.2.2.2.2⟩

/-- The grouping fold appends each booking's entry to exactly the bucket
named by its result, in list order. -/
theorem foldl_addToBucket_spec (l : List LearnerTestBooking) (acc : ResultBuckets) :
    (l.foldl addToBucket acc).pending
        = acc.pending ++ (l.filter (fun b => b.result == TestResult.pending)).map entryOf
    ∧ (l.foldl addToBucket acc).passed
        = acc.passed ++ (l.filter (fun b => b.result == TestResult.passed)).map entryOf
    ∧ (l.foldl addToBucket acc).failed
        = acc.failed ++ (l.filter (fun b => b.result == TestResult.failed)).map entryOf
    ∧ (l.foldl addToBucket acc).absent
        = acc.absent ++ (l.filter (fun b => b.result == TestResult.absent)).map entryOf := by
  induction l generalizing acc with
  | nil => simp
  | cons x xs ih =>
    cases hx : x.result <;>
      simp [addToBucket, hx, ih, List.filter_cons]

/-- The four result buckets partition a booking list: their sizes sum to
the length of the list. -/
theorem filter_result_length_sum (l : List LearnerTestBooking) :
    (l.filter (fun b => b.result == TestResult.pending)).length
      + (l.filter (fun b => b.result == TestResult.passed)).length
      + (l.filter (fun b => b.result == TestResult.failed)).length
      + (l.filter (fun b => b.result == TestResult.absent)).length
      = l.length := by
  induction l with
  | nil => simp
  | cons x xs ih =>
    cases hx : x.result <;>
      · simp [List.filter_cons, hx]
        omega

/-- Claim C6: the results-by-date breakdown returns, for the queried
date, every booking whose test date equals it exactly, partitioned into
the four result buckets; each summary count equals its bucket's size and
the total count equals the number of bookings on that date (the bucket
sizes summing to the total). -/
theorem C6_results_by_date (st : DBState) (d : String) :
    (get_all_results_by_date st d).date = d
    ∧ (get_all_results_by_date st d).total_bookings
        = (st.bookings.filter (fun b => b.test_date == d)).length
    ∧ (get_all_results_by_date st d).results.pending
        = ((st.bookings.filter (fun b => b.test_date == d)).filter
            (fun b => b.result == TestResult.pending)).map entryOf
    ∧ (get_all_results_by_date st d).results.passed
        = ((st.bookings.filter (fun b => b.test_date == d)).filter
            (fun b => b.result == TestResult.passed)).map entryOf
    ∧ (get_all_results_by_date st d).results.failed
        = ((st.bookings.filter (fun b => b.test_date == d)).filter
            (fun b => b.result == TestResult.failed)).map entryOf
    ∧ (get_all_results_by_date st d).results.absent
        = ((st.bookings.filter (fun b => b.test_date == d)).filter
            (fun b => b.result == TestResult.absent)).map entryOf
    ∧ (get_all_results_by_date st d).summary.pending
        = (get_all_results_by_date st d).results.pending.length
    ∧ (get_all_results_by_date st d).summary.passed
        = (get_all_results_by_date st d).results.passed.length
    ∧ (get_all_results_by_date st d).summary.failed
        = (get_all_results_by_date st d).results.failed.length
    ∧ (get_all_results_by_date st d).summary.absent
        = (get_all_results_by_date st d).results.absent.length
    ∧ (get_all_results_by_date st d).summary.pending
        + (get_all_results_by_date st d).summary.passed
        + (get_all_results_by_date st d).summary.failed
        + (get_all_results_by_date st d).summary.absent
        = (get_all_results_by_date st d).total_bookings := by
  have hspec := foldl_addToBucket_spec
    (st.bookings.filter (fun b => b.test_date == d)) {}
  have hsum := filter_result_length_sum
    (st.bookings.filter (fun b => b.test_date == d))
  refine ⟨rfl, rfl, ?_, ?_, ?_, ?_, rfl, rfl, rfl, rfl, ?_⟩
  · simpa [get_all_results_by_date] using hspec.1
  · simpa [get_all_results_by_date] using hspec.2.1
  · simpa [get_all_results_by_date] using hspec.2.2.1
  · simpa [get_all_results_by_date] using hspec.2.2.2
  · simp only [get_all_results_by_date]
    rw [hspec.1, hspec.2.1, hspec.2.2.1, hspec.2.2.2]
    simpa [List.length_map] using hsum

/-- Claim C7: a learner id with zero stored bookings makes
`get_bookings_by_learner` fail with `notFound` (rather than return an
empty list), and a user id with zero recorded answers makes
`get_security_answers_by_user` fail with `notFound`: neither handler
distinguishes an absent primary entity from one with no children. -/
theorem C7_empty_children_not_found (st : DBState) (lid uid : Nat) :
    (st.bookings.filter (fun b => b.learner_id == lid) = [] →
      get_bookings_by_learner st lid = Except.error ApiError.notFound)
    ∧ (st.answers.filter (fun a => a.user_id == uid) = [] →
      get_security_answers_by_user st uid = Except.error ApiError.notFound) := by
  constructor
  · intro h
    simp [get_bookings_by_learner, h]
  · intro h
    simp [get_security_answers_by_user, h]

/-- Witness for C7: on the empty store both queries fail with
`notFound`. -/
theorem C7_empty_children_not_found_witness :
    get_bookings_by_learner emptyDB 7 = Except.error ApiError.notFound
    ∧ get_security_answers_by_user emptyDB 4 = Except.error ApiError.notFound := by
  have h := C7_empty_children_not_found emptyDB 7 4
  exact ⟨h.1 rfl, h.2 rfl⟩

/-- Claim C10: for a date with no matching bookings, the pending-for-date
and completed-for-date queries succeed with the empty list (they have no
failure path), in contrast to `get_bookings_by_learner`, which fails with
`notFound` on an empty result. -/
theorem C10_date_queries_empty_ok (st : DBState) (d : String) (lid : Nat) :
    (st.bookings.filter (fun b => b.test_date == d) = [] →
      get_pending_learners st d = [] ∧ get_completed_learners st d = [])
    ∧ (st.bookings.filter (fun b => b.learner_id == lid) = [] →
      get_bookings_by_learner st lid = Except.error ApiError.notFound) := by
  constructor
  · intro h
    rw [List.filter_eq_nil_iff] at h
    constructor
    · rw [get_pending_learners, List.filter_eq_nil_iff]
      intro a ha
      have := h a ha
      simp_all
    · rw [get_completed_learners, List.filter_eq_nil_iff]
      intro a ha
      have := h a ha
      simp_all
  · intro h
    simp [get_bookings_by_learner, h]

/-- Witness for C10: on the empty store, both date queries return the
empty list while the learner query errors. -/
theorem C10_date_queries_empty_ok_witness :
    (get_pending_learners emptyDB "2024-05-01" = []
      ∧ get_completed_learners emptyDB "2024-05-01" = [])
    ∧ get_bookings_by_learner emptyDB 9 = Except.error ApiError.notFound := by
  have h := C10_date_queries_empty_ok emptyDB "2024-05-01" 9
  exact ⟨h.1 rfl, h.2 rfl⟩

/-- Counterexample to claim C8 as stated: creating the fixture booking
(with `booking_id` unset) succeeds and the stored row receives the
system-assigned id 1, but the value returned to the caller is the
request schema itself, whose `booking_id` is still `none` — the response
does not carry the system-assigned booking id. -/
theorem C8_counterexample :
    (create_test_booking emptyDB exBooking).1 = Except.ok exBooking
    ∧ exBooking.booking_id = none
    ∧ (create_test_booking emptyDB exBooking).2.bookings.map
        (fun b => b.booking_id) = [1] :=
  ⟨rfl, rfl, rfl⟩

/-- Claim C8 (amended): every successful `create_test_booking` with
`booking_id` unset stores a row whose id is the current autoincrement
value and advances that sequence by one (system-assigned, monotonically
increasing ids), but the value returned to the caller is the request
schema echoed unchanged — with its `booking_id` still unset — not the
stored record. -/
theorem C8_create_booking_id (st : DBState) (b : LearnerTestBookingSchema)
    (hid : b.booking_id = none)
    (hok : (create_test_booking st b).1.isOk = true) :
    (create_test_booking st b).1 = Except.ok b
    ∧ (create_test_booking st b).2.bookings
        = st.bookings ++ [newBookingRow st b]
    ∧ (newBookingRow st b).booking_id = st.next_booking_id
    ∧ (create_test_booking st b).2.next_booking_id = st.next_booking_id + 1 := by
  have hc' : st.bookings.any (fun x => x.booking_id == newBookingId st b) = false := by
    by_cases h : st.bookings.any (fun x => x.booking_id == newBookingId st b) = true
    · rw [create_test_booking] at hok
      simp [h, Except.isOk, Except.toBool] at hok
    · simpa using h
  have he := create_test_booking_ok st b hc'
  refine ⟨?_, ?_, ?_, ?_⟩
  · rw [he]
  · rw [he]
  · simp [newBookingRow, newBookingId, hid]
  · rw [he]
    simp [hid]

/-- Witness for C8 (amended): the fixture creation echoes the request,
stores the row under id 1 and advances the sequence to 2. -/
theorem C8_create_booking_id_witness :
    (create_test_booking emptyDB exBooking).1 = Except.ok exBooking
    ∧ (create_test_booking emptyDB exBooking).2.bookings
        = emptyDB.bookings ++ [newBookingRow emptyDB exBooking]
    ∧ (newBookingRow emptyDB exBooking).booking_id = emptyDB.next_booking_id
    ∧ (create_test_booking emptyDB exBooking).2.next_booking_id
        = emptyDB.next_booking_id + 1 :=
  C8_create_booking_id emptyDB exBooking rfl rfl

/-- Equation: seeding skips a question whose exact text is already in
the catalog. -/
theorem insertQuestion_present (st : DBState) (q : String)
    (h : st.questions.any (fun sq => sq.question == q) = true) :
    insertQuestionIfAbsent st q = st := by
  simp [insertQuestionIfAbsent, h]

/-- Equation: seeding appends a question whose exact text is absent. -/
theorem insertQuestion_absent (st : DBState) (q : String)
    (h : st.questions.any (fun sq => sq.question == q) = false) :
    insertQuestionIfAbsent st q
      = { st with
          questions := st.questions ++ [{ id := st.next_question_id, question := q }]
          next_question_id := st.next_question_id + 1 } := by
  simp [insertQuestionIfAbsent, h]

/-- A question text is absent exactly when its row count is zero. -/
theorem countQuestion_eq_zero_iff (st : DBState) (q : String) :
    countQuestion st q = 0
      ↔ st.questions.any (fun sq => sq.question == q) = false := by
  rw [countQuestion, List.countP_eq_zero, List.any_eq_false]

/-- Inserting an absent text adds exactly one row with that text. -/
theorem countQuestion_insert_self (st : DBState) (q : String)
    (h : st.questions.any (fun sq => sq.question == q) = false) :
    countQuestion (insertQuestionIfAbsent st q) q = countQuestion st q + 1 := by
  rw [insertQuestion_absent st q h]
  simp [countQuestion, List.countP_append]

/-- Seeding one text never changes the count of a different text. -/
theorem countQuestion_insert_other (st : DBState) (q q' : String)
    (hne : q' ≠ q) :
    countQuestion (insertQuestionIfAbsent st q') q = countQuestion st q := by
  by_cases h : st.questions.any (fun sq => sq.question == q') = true
  · rw [insertQuestion_present st q' h]
  · rw [insertQuestion_absent st q' (by simpa using h)]
    simp [countQuestion, List.countP_append, hne]

/-- A seeding loop whose question list avoids a text never changes that
text's count. -/
theorem countQuestion_foldl_not_mem (qs : List String) :
    ∀ (st : DBState) (q : String), q ∉ qs →
      countQuestion (qs.foldl insertQuestionIfAbsent st) q = countQuestion st q := by
  induction qs with
  | nil => intro st q _; rfl
  | cons q' qs' ih =>
    intro st q h
    have hne : q' ≠ q := fun e => h (by simp [e])
    rw [List.foldl_cons, ih _ q (fun hm => h (by simp [hm])),
      countQuestion_insert_other st q q' hne]

/-- A duplicate-free seeding loop containing a text leaves exactly one
row of that text when it was absent, and the existing rows otherwise. -/
theorem countQuestion_foldl_mem (qs : List String) :
    ∀ (st : DBState) (q : String), qs.Nodup → q ∈ qs →
      countQuestion (qs.foldl insertQuestionIfAbsent st) q
        = if countQuestion st q = 0 then 1 else countQuestion st q := by
  induction qs with
  | nil => intro st q _ hq; simp at hq
  | cons q' qs' ih =>
    intro st q hnd hq
    rw [List.foldl_cons]
    rcases List.mem_cons.mp hq with he | hm
    · subst he
      have hnotin : q ∉ qs' := (List.nodup_cons.mp hnd).1
      rw [countQuestion_foldl_not_mem qs' _ q hnotin]
      by_cases h0 : countQuestion st q = 0
      · rw [if_pos h0, countQuestion_insert_self st q
          ((countQuestion_eq_zero_iff st q).mp h0), h0]
      · rw [if_neg h0]
        have hany : st.questions.any (fun sq => sq.question == q) = true := by
          by_contra hh
          exact h0 ((countQuestion_eq_zero_iff st q).mpr (by simpa using hh))
        rw [insertQuestion_present st q hany]
    · have hne : q' ≠ q := by
        rintro rfl
        exact (List.nodup_cons.mp hnd).1 hm
      rw [ih _ q (List.nodup_cons.mp hnd).2 hm,
        countQuestion_insert_other st q q' hne]

/-- A seeding loop over texts that are all already present is the
identity on the store. -/
theorem foldl_insert_noop (qs : List String) :
    ∀ st : DBState,
      (∀ q ∈ qs, st.questions.any (fun sq => sq.question == q) = true) →
      qs.foldl insertQuestionIfAbsent st = st := by
  induction qs with
  | nil => intro st _; rfl
  | cons q qs' ih =>
    intro st h
    rw [List.foldl_cons, insertQuestion_present st q (h q (by simp))]
    exact ih st (fun x hx => h x (by simp [hx]))

/-- The seeding loop only appends catalog rows, deleting nothing. -/
theorem foldl_insert_append (qs : List String) :
    ∀ st : DBState,
      ∃ new, (qs.foldl insertQuestionIfAbsent st).questions
        = st.questions ++ new := by
  induction qs with
  | nil => intro st; exact ⟨[], by simp⟩
  | cons q qs' ih =>
    intro st
    obtain ⟨new, hnew⟩ := ih (insertQuestionIfAbsent st q)
    by_cases h : st.questions.any (fun sq => sq.question == q) = true
    · rw [List.foldl_cons, insertQuestion_present st q h]
      rw [insertQuestion_present st q h] at hnew
      exact ⟨new, hnew⟩
    · have h' : st.questions.any (fun sq => sq.question == q) = false := by
        simpa using h
      rw [List.foldl_cons]
      refine ⟨{ id := st.next_question_id, question := q } :: new, ?_⟩
      rw [hnew, insertQuestion_absent st q h']
      simp

/-- After seeding, every canonical question text is present. -/
theorem seeded_present (st : DBState) :
    ∀ q ∈ default_qs,
      ((insert_default_questions st).questions).any
        (fun sq => sq.question == q) = true := by
  intro q hq
  have hcount := countQuestion_foldl_mem default_qs st q (by decide) hq
  by_contra hfalse
  have h0 : countQuestion (insert_default_questions st) q = 0 :=
    (countQuestion_eq_zero_iff _ q).mpr (by simpa using hfalse)
  rw [insert_default_questions, hcount] at h0
  by_cases hz : countQuestion st q = 0
  · rw [if_pos hz] at h0
    exact one_ne_zero h0
  · rw [if_neg hz] at h0
    exact hz h0

/-- Running the seeding twice equals running it once. -/
theorem insert_default_questions_idem (st : DBState) :
    insert_default_questions (insert_default_questions st)
      = insert_default_questions st :=
  foldl_insert_noop default_qs _ (seeded_present st)

/-- Claim C9: the startup seeding inserts each of the six canonical
questions only when no row carries exactly that text and deletes nothing
(it only appends); each seeded text ends with exactly one row when it
was absent and an unchanged count otherwise, non-canonical texts are
untouched, and running the seeding any number of further times from any
starting catalog changes nothing more (idempotence). -/
theorem C9_seeding_idempotent (st : DBState) :
    (∃ new, (insert_default_questions st).questions = st.questions ++ new)
    ∧ (∀ q, q ∈ default_qs →
        countQuestion (insert_default_questions st) q
          = if countQuestion st q = 0 then 1 else countQuestion st q)
    ∧ (∀ q, q ∉ default_qs →
        countQuestion (insert_default_questions st) q = countQuestion st q)
    ∧ (∀ n : Nat, insert_default_questions^[n] (insert_default_questions st)
        = insert_default_questions st) := by
  refine ⟨foldl_insert_append default_qs st, ?_, ?_, ?_⟩
  · intro q hq
    exact countQuestion_foldl_mem default_qs st q (by decide) hq
  · intro q hq
    exact countQuestion_foldl_not_mem default_qs st q hq
  · intro n
    induction n with
    | zero => rfl
    | succ n ihn =>
      rw [Function.iterate_succ_apply, insert_default_questions_idem, ihn]

/-- Witness for C9: seeding the empty store yields exactly one row for a
canonical question, none for a non-canonical text, and three further
runs change nothing. -/
theorem C9_seeding_idempotent_witness :
    countQuestion (insert_default_questions emptyDB) "In what city were you born?" = 1
    ∧ countQuestion (insert_default_questions emptyDB) "What is your favourite colour?" = 0
    ∧ insert_default_questions^[3] (insert_default_questions emptyDB)
        = insert_default_questions emptyDB := by
  have h := C9_seeding_idempotent emptyDB
  refine ⟨?_, ?_, h.2.2.2 3⟩
  · have h1 := h.2.1 "In what city were you born?" (by decide)
    rw [h1]
    decide
  · have h2 := h.2.2.1 "What is your favourite colour?" (by decide)
    rw [h2]
    decide
